import Mathlib

/-!
Shallow embedding of the netbot engagement-pipeline core.

The definitions below are translated from the repository sources:
  * `core/models.py`                          — data model
  * `core/agent.py`                           — `SocialAgent.rank_by_virality`,
                                                `SocialAgent.decide_and_comment`
  * `core/chains/judge.py`                    — `Judge.evaluate`
  * `core/chains/ghostwriter.py`              — `Ghostwriter.write`
  * `core/database.py`                        — record-store operations
  * `core/networks/{linkedin,twitter,instagram}/discovery.py`
                                              — `validate_candidate`

External effects are made explicit: the Supabase store becomes a `DbState`
value threaded through the validators, the two LLM calls become `Except`
parameters carrying either the structured response or the text of the raised
exception, and timestamps become a `now : Nat` parameter.  Python `or`
on integers (falsy on 0) is modelled by `pyOrInt`, `str.strip()` emptiness by
`String.trim`, and the float score of `rank_by_virality` by a rational number.
-/

namespace Netbot

/-! ### Data model (`core/models.py`) -/

inductive SocialPlatform
  | instagram
  | threads
  | twitter
  | linkedin
  | bluesky
  | devto
deriving DecidableEq

/-- Value of the `str`-valued enum `SocialPlatform` in `core/models.py`. -/
def SocialPlatform.value : SocialPlatform → String
  | .instagram => "instagram"
  | .threads => "threads"
  | .twitter => "twitter"
  | .linkedin => "linkedin"
  | .bluesky => "bluesky"
  | .devto => "devto"

structure SocialAuthor where
  username : String
  platform : SocialPlatform
  id : Option String := none
  display_name : Option String := none
  bio : Option String := none
  profile_url : Option String := none
  is_verified : Bool := false
deriving DecidableEq

/-- Metrics dictionary attached to posts by the platform clients
(`post.metrics` is set dynamically; the dataclass in `core/models.py` does not
declare it, and all readers access it with `getattr(post, 'metrics', {})` or
directly).  Keys are unique in the Python dict; `metricsGet` mirrors
`metrics.get(key, 0)`. -/
abbrev Metrics := List (String × Int)

def metricsGet (m : Metrics) (k : String) : Int :=
  (List.lookup k m).getD 0

/-- Python `a or b` on integers: `a` is falsy exactly when it is `0`. -/
def pyOrInt (a b : Int) : Int :=
  if a = 0 then b else a

/-- Python `needle in hay` substring test. -/
def hasSub (hay needle : String) : Bool :=
  decide (needle.toList <:+: hay.toList)

/-- `SocialPost` from `core/models.py`.  The fields `created_at`, `comments`
and `raw_data` are never read by the embedded functions and are omitted;
`metrics` is the dynamically attached dictionary described at `Metrics`. -/
structure SocialPost where
  id : String
  platform : SocialPlatform
  author : SocialAuthor
  content : String
  url : String
  media_urls : List String := []
  media_type : String := "text"
  like_count : Int := 0
  comment_count : Int := 0
  share_count : Int := 0
  metrics : Metrics := []
deriving DecidableEq

/-- `ActionDecision` from `core/models.py`: the dataclass declares exactly
these five fields (in particular, no `confidence_score` field). -/
structure ActionDecision where
  should_act : Bool
  action_type : String := "comment"
  content : Option String := none
  reasoning : Option String := none
  platform : Option SocialPlatform := none
deriving DecidableEq

/-- `PostCategory` from `core/chains/judge.py`. -/
inductive PostCategory
  | TECHNICAL
  | CAREER
  | NETWORKING
  | OPINION
  | OTHER
deriving DecidableEq

/-- `JudgeVerdict` from `core/chains/judge.py`. -/
structure JudgeVerdict where
  should_engage : Bool
  category : PostCategory
  language : String
  reasoning : String
deriving DecidableEq

/-- `GhostwriterOutput` from `core/chains/ghostwriter.py`. -/
structure GhostwriterOutput where
  comment_text : String
  confidence_score : Int
  reasoning : String
deriving DecidableEq

/-! ### Record store (`core/database.py`)

A `discovered_posts` row.  `created_at` / `updated_at` timestamps are plain
naturals handed in by the caller as `now`. -/

structure DiscoveredPostRecord where
  external_id : String
  platform : String
  hashtag_source : String
  metrics : Metrics
  status : String
  ai_reasoning : Option String := none
  created_at : Nat
  updated_at : Option Nat := none
deriving DecidableEq

/-- Store state: the `interactions` table keyed by `(post_id, platform)` and
the `discovered_posts` table with unique key `(external_id, platform)`. -/
structure DbState where
  interactions : List (String × String)
  discovered : List DiscoveredPostRecord
deriving DecidableEq

/-- Row match for the `(external_id, platform)` key. -/
def recordKeyed (pid pf : String) (r : DiscoveredPostRecord) : Bool :=
  r.external_id == pid && r.platform == pf

/-- `Database.check_if_interacted`: membership test on the `interactions`
table for `(post_id, platform)`. -/
def Database.check_if_interacted (db : DbState) (post_id platform : String) : Bool :=
  db.interactions.contains (post_id, platform)

/-- `Database.log_discovery`: upsert on `(external_id, platform)`.  The data
written always carries `status = "seen"`, so a conflicting row has its
`hashtag_source`, `metrics`, `status` and `created_at` columns overwritten
(columns not in the payload — `ai_reasoning`, `updated_at` — keep their
values). -/
def Database.log_discovery (db : DbState) (now : Nat)
    (post_id platform source : String) (metrics : Metrics) : DbState :=
  if db.discovered.any (recordKeyed post_id platform) then
    { db with discovered := db.discovered.map (fun r =>
        if recordKeyed post_id platform r then
          { r with hashtag_source := source, metrics := metrics,
                   status := "seen", created_at := now }
        else r) }
  else
    { db with discovered := db.discovered ++
        [{ external_id := post_id, platform := platform, hashtag_source := source,
           metrics := metrics, status := "seen", ai_reasoning := none,
           created_at := now, updated_at := none }] }

/-- `Database.update_discovery_status`: updates `status` (and `ai_reasoning`
when the passed reasoning is truthy, i.e. present and non-empty) of every row
matching `(external_id, platform)`. -/
def Database.update_discovery_status (db : DbState) (now : Nat)
    (external_id platform status : String) (reasoning : Option String) : DbState :=
  { db with discovered := db.discovered.map (fun r =>
      if recordKeyed external_id platform r then
        { r with status := status, updated_at := some now,
                 ai_reasoning :=
                   match reasoning with
                   | some s => if s = "" then r.ai_reasoning else some s
                   | none => r.ai_reasoning }
      else r) }

/-! ### Ranker (`core/agent.py`, `SocialAgent.rank_by_virality`) -/

/-- Virality score of a post (`virality_score` inside `rank_by_virality`):
`likes + comments*3 + shares*5 + views*0.01 + followers*0.001`, where
`likes`/`comments`/`shares` are the post counters (`x or 0` is the identity on
the int-valued dataclass fields) and views/followers come from the metrics
dictionary through Python `or` chains, every missing field defaulting to 0.
The float arithmetic is modelled over the rationals. -/
def viralityScore (post : SocialPost) : ℚ :=
  let likes : Int := post.like_count
  let comments : Int := post.comment_count
  let shares : Int := post.share_count
  let views : Int :=
    pyOrInt (metricsGet post.metrics "view_count") (pyOrInt (metricsGet post.metrics "views") 0)
  let followers : Int := pyOrInt (metricsGet post.metrics "follower_count") 0
  (likes : ℚ) + (comments : ℚ) * 3 + (shares : ℚ) * 5
    + (views : ℚ) / 100 + (followers : ℚ) / 1000

/-- Sort key used by `sorted(approved, key=virality_score, reverse=True)`:
the verdict component is ignored. -/
def itemScore (item : SocialPost × JudgeVerdict) : ℚ :=
  viralityScore item.1

/-- Stable descending insertion: an element is placed before the first
position whose key is not strictly larger, as Python `sorted` with
`reverse=True` does for the element relative to the already-sorted rest. -/
def insertDescBy {α : Type} (s : α → ℚ) (x : α) : List α → List α
  | [] => [x]
  | y :: ys => if s x < s y then y :: insertDescBy s x ys else x :: y :: ys

/-- Stable descending sort by a rational key; realises the semantics of
CPython `sorted(key=..., reverse=True)` (a stable sort in which ties keep
their original relative order). -/
def sortDescBy {α : Type} (s : α → ℚ) : List α → List α
  | [] => []
  | x :: xs => insertDescBy s x (sortDescBy s xs)

/-- `SocialAgent.rank_by_virality`: stable descending sort of the approved
`(post, verdict)` pairs by `virality_score`. -/
def SocialAgent.rank_by_virality (approved : List (SocialPost × JudgeVerdict)) :
    List (SocialPost × JudgeVerdict) :=
  sortDescBy itemScore approved

/-! ### The Judge (`core/chains/judge.py`) -/

/-- Hard filter at the top of `Judge.evaluate`: on LinkedIn a post is treated
as coming from a company/school page when its author profile URL contains
`/company/` or `/school/`, or when its (truthy) author username contains
`/posts`. -/
def linkedinCompanyHardBlock (post : SocialPost) : Bool :=
  if post.platform.value == "linkedin" then
    let byUrl : Bool :=
      match post.author.profile_url with
      | some u => hasSub u "/company/" || hasSub u "/school/"
      | none => false
    let byHandle : Bool :=
      (post.author.username != "") && hasSub post.author.username "/posts"
    byUrl || byHandle
  else
    false

/-- Verdict returned by the hard filter in `Judge.evaluate`. -/
def hardBlockVerdict : JudgeVerdict :=
  { should_engage := false, category := .OTHER, language := "en",
    reasoning := "Hard Block: Post is from a Company or School page (not a person)." }

/-- Fail-open verdict produced by the `except` handler of `Judge.evaluate`,
`e` being the text of the raised exception. -/
def judgeFailOpenVerdict (e : String) : JudgeVerdict :=
  { should_engage := true, category := .OTHER, language := "en",
    reasoning := "Judge error (fail-open): " ++ e }

/-- `Judge.evaluate`.  The LLM call (`self.agent.run` and the subsequent DB
logging, all inside the `try`) is passed in as an `Except`: `.ok v` when it
produces a structured verdict, `.error e` when it raises an exception with
text `e`.  The hard filter runs before the `try` block. -/
def Judge.evaluate (post : SocialPost) (llm : Except String JudgeVerdict) : JudgeVerdict :=
  if linkedinCompanyHardBlock post then
    hardBlockVerdict
  else
    match llm with
    | .ok v => v
    | .error e => judgeFailOpenVerdict e

/-! ### The Ghostwriter (`core/chains/ghostwriter.py`) -/

/-- Fallback produced by `Ghostwriter.write` when the structured output turns
out to be a raw string. -/
def rawStringFallbackOutput : GhostwriterOutput :=
  { comment_text := "", confidence_score := 0,
    reasoning := "LLM returned raw string instead of structured object." }

/-- Fail-closed output produced by the `except` handler of
`Ghostwriter.write`. -/
def ghostwriterErrorOutput (e : String) : GhostwriterOutput :=
  { comment_text := "", confidence_score := 0,
    reasoning := "Ghostwriter error: " ++ e }

/-- `Ghostwriter.write`.  The engagement context only shapes the prompt
handed to the opaque LLM, so the call outcome is the sole parameter:
`.error e` when `agent.run` (or the logging inside the `try`) raises an
exception with text `e`, `.ok (.inl raw)` when it returns a raw string
instead of the schema, `.ok (.inr output)` when it returns the structured
object. -/
def Ghostwriter.write (llm : Except String (String ⊕ GhostwriterOutput)) : GhostwriterOutput :=
  match llm with
  | .error e => ghostwriterErrorOutput e
  | .ok (.inl _raw) => rawStringFallbackOutput
  | .ok (.inr output) => output

/-! ### Decision pipeline (`core/agent.py`, `SocialAgent.decide_and_comment`) -/

/-- Python `not s.strip()`: a string is stripped to nothing exactly when all
its characters are whitespace (vacuously so for the empty string). -/
def stripIsEmpty (s : String) : Bool :=
  s.toList.all Char.isWhitespace

/-- Post-processing block of `decide_and_comment` (confidence filter then
empty-comment guard): returns the computed `should_act` flag together with
the accumulated reasoning string.  `not output.comment_text.strip()` is
modelled by `stripIsEmpty`. -/
def decisionPostProcess (output : GhostwriterOutput) : Bool × String :=
  let afterConfidence : Bool × String :=
    if output.confidence_score < 70 then
      (false, "[Low Confidence " ++ toString output.confidence_score ++ "%] " ++ output.reasoning)
    else
      (true, output.reasoning)
  if stripIsEmpty output.comment_text then
    (false, "[Empty Comment] " ++ afterConfidence.2)
  else
    afterConfidence

/-- Message of the `TypeError` raised when `decide_and_comment` constructs
its final `ActionDecision`: the call passes `confidence_score=...`, but the
dataclass in `core/models.py` declares no such field.  (CPython renders the
argument name in quotes; the quotes are immaterial here and omitted.) -/
def actionDecisionTypeErrorMsg : String :=
  "ActionDecision.__init__() got an unexpected keyword argument confidence_score"

/-- `SocialAgent.decide_and_comment`, with the context-builder/ghostwriter
phase passed in as an `Except` (`.error e` when anything in those external
calls raises an exception with text `e`).  In the `.ok` branch the code runs
the post-processing and then constructs `ActionDecision` with a
`confidence_score` keyword the dataclass does not accept; the resulting
`TypeError` is caught by the surrounding handler, which returns the
fail-closed decision instead. -/
def SocialAgent.decide_and_comment (generation : Except String GhostwriterOutput) : ActionDecision :=
  match generation with
  | .ok output =>
      let _processed := decisionPostProcess output
      { should_act := false,
        reasoning := some ("Error: " ++ actionDecisionTypeErrorMsg) }
  | .error e =>
      { should_act := false, reasoning := some ("Error: " ++ e) }

/-! ### Candidate validators (`core/networks/*/discovery.py`) -/

/-- State after the `db.log_discovery(post.id, post.platform.value,
"discovery", metrics)` call shared by the Twitter and LinkedIn validators
(the local `db` after logging). -/
def discoveryLogged (post : SocialPost) (db : DbState) (now : Nat) : DbState :=
  Database.log_discovery db now post.id post.platform.value "discovery" post.metrics

/-- Local `likes` of the LinkedIn engagement check:
`metrics.get('likes', 0) or metrics.get('reactions', 0) or 0`. -/
def linkedinLikes (post : SocialPost) : Int :=
  pyOrInt (metricsGet post.metrics "likes") (pyOrInt (metricsGet post.metrics "reactions") 0)

/-- Local `comments` of the LinkedIn engagement check:
`metrics.get('comments', 0) or 0`. -/
def linkedinComments (post : SocialPost) : Int :=
  pyOrInt (metricsGet post.metrics "comments") 0

/-- Local `reply_count` of the Twitter validator:
`metrics.get("reply_count", 0)`. -/
def twitterReplyCount (post : SocialPost) : Int :=
  metricsGet post.metrics "reply_count"

/-- `LinkedInDiscovery.validate_candidate`.  Note the dedup check passes the
literal platform `"linkedin"` while the store writes use
`post.platform.value`, exactly as in the source. -/
def LinkedInDiscovery.validate_candidate (post : SocialPost) (db : DbState) (now : Nat) :
    Bool × DbState :=
  if post.id = "" then (false, db) else
  if Database.check_if_interacted (discoveryLogged post db now) post.id "linkedin" then
    (false, Database.update_discovery_status (discoveryLogged post db now) now post.id
      post.platform.value "skipped" (some "Already interacted"))
  else if post.content = "" ∨ post.content.length < 10 then
    (false, Database.update_discovery_status (discoveryLogged post db now) now post.id
      post.platform.value "skipped" (some "Low content"))
  else if hasSub post.content "Promoted" then
    (false, discoveryLogged post db now)
  else if linkedinLikes post < 10 ∧ linkedinComments post < 2 then
    (false, Database.update_discovery_status (discoveryLogged post db now) now post.id
      post.platform.value "skipped" (some ("Low engagement: " ++ toString (linkedinLikes post)
        ++ " likes, " ++ toString (linkedinComments post) ++ " comments")))
  else
    (true, discoveryLogged post db now)

/-- `TwitterDiscovery.validate_candidate`: log as seen, then the reply-count
band filter, then the dedup check — in that order. -/
def TwitterDiscovery.validate_candidate (post : SocialPost) (db : DbState) (now : Nat) :
    Bool × DbState :=
  if post.id = "" then (false, db) else
  if twitterReplyCount post < 5 then
    (false, Database.update_discovery_status (discoveryLogged post db now) now post.id
      post.platform.value "skipped"
      (some ("Low engagement: " ++ toString (twitterReplyCount post) ++ " replies")))
  else if twitterReplyCount post > 50 then
    (false, Database.update_discovery_status (discoveryLogged post db now) now post.id
      post.platform.value "skipped"
      (some ("Too crowded: " ++ toString (twitterReplyCount post) ++ " replies")))
  else if Database.check_if_interacted (discoveryLogged post db now) post.id
      post.platform.value then
    (false, Database.update_discovery_status (discoveryLogged post db now) now post.id
      post.platform.value "skipped" (some "Already interacted"))
  else
    (true, discoveryLogged post db now)

/-- `InstagramDiscovery.validate_candidate`.  It never calls `log_discovery`
or `update_discovery_status`: its only store access is the read-only dedup
check, so the state comes back unchanged on every path.  `igUsername` is the
configured `settings.IG_USERNAME`. -/
def InstagramDiscovery.validate_candidate (igUsername : String) (post : SocialPost)
    (db : DbState) : Bool × DbState :=
  if post.id = "" then (false, db)
  else if Database.check_if_interacted db post.id post.platform.value then (false, db)
  else if post.author.username = igUsername then (false, db)
  else if post.content = "" ∧ post.media_urls = [] then (false, db)
  else (true, db)

/-- Per-candidate slice of the pipeline for a LinkedIn post: discovery
validation first (`find_candidates` keeps only posts passing
`validate_candidate`), and only surviving candidates are handed to
`Judge.evaluate` (`SocialAgent.judge_all`). -/
def linkedinCandidateStage (post : SocialPost) (db : DbState) (now : Nat)
    (llm : Except String JudgeVerdict) : Option JudgeVerdict × DbState :=
  let step := LinkedInDiscovery.validate_candidate post db now
  if step.1 then (some (Judge.evaluate post llm), step.2) else (none, step.2)

/-! ## Helper lemmas -/

theorem insertDescBy_perm {α : Type} (s : α → ℚ) (x : α) (l : List α) :
    (insertDescBy s x l).Perm (x :: l) := by
  induction l with
  | nil => exact List.Perm.refl _
  | cons y ys ih =>
    unfold insertDescBy
    split
    · exact (ih.cons y).trans (List.Perm.swap x y ys)
    · exact List.Perm.refl _

theorem sortDescBy_perm {α : Type} (s : α → ℚ) (l : List α) :
    (sortDescBy s l).Perm l := by
  induction l with
  | nil => exact List.Perm.refl _
  | cons x xs ih =>
    exact (insertDescBy_perm s x (sortDescBy s xs)).trans (ih.cons x)

theorem insertDescBy_pairwise {α : Type} (s : α → ℚ) (x : α) {l : List α}
    (h : l.Pairwise (fun a b => s b ≤ s a)) :
    (insertDescBy s x l).Pairwise (fun a b => s b ≤ s a) := by
  induction l with
  | nil => simp [insertDescBy]
  | cons y ys ih =>
    rcases List.pairwise_cons.mp h with ⟨hy, hys⟩
    unfold insertDescBy
    split
    · rename_i hlt
      refine List.pairwise_cons.mpr ⟨?_, ih hys⟩
      intro b hb
      rcases List.mem_cons.mp ((insertDescBy_perm s x ys).mem_iff.mp hb) with hb | hb
      · exact hb ▸ le_of_lt hlt
      · exact hy b hb
    · rename_i hge
      refine List.pairwise_cons.mpr ⟨?_, h⟩
      intro b hb
      rcases List.mem_cons.mp hb with hb | hb
      · exact hb ▸ le_of_not_lt hge
      · exact le_trans (hy b hb) (le_of_not_lt hge)

theorem sortDescBy_pairwise {α : Type} (s : α → ℚ) (l : List α) :
    (sortDescBy s l).Pairwise (fun a b => s b ≤ s a) := by
  induction l with
  | nil => simp [sortDescBy]
  | cons x xs ih => exact insertDescBy_pairwise s x ih

theorem filter_insertDescBy_of_eq {α : Type} (s : α → ℚ) (x : α) (l : List α) (q : ℚ)
    (hx : s x = q) :
    (insertDescBy s x l).filter (fun a => decide (s a = q))
      = x :: l.filter (fun a => decide (s a = q)) := by
  induction l with
  | nil => simp [insertDescBy, hx]
  | cons y ys ih =>
    unfold insertDescBy
    split
    · rename_i hlt
      have hy : ¬ s y = q := by
        intro hyq
        exact absurd (hx ▸ hyq ▸ hlt) (lt_irrefl _)
      simp only [List.filter_cons, decide_eq_true_eq, if_neg hy, ih]
    · simp only [List.filter_cons, decide_eq_true_eq, if_pos hx]

theorem filter_insertDescBy_of_ne {α : Type} (s : α → ℚ) (x : α) (l : List α) (q : ℚ)
    (hx : ¬ s x = q) :
    (insertDescBy s x l).filter (fun a => decide (s a = q))
      = l.filter (fun a => decide (s a = q)) := by
  induction l with
  | nil => simp [insertDescBy, hx]
  | cons y ys ih =>
    unfold insertDescBy
    split
    · simp only [List.filter_cons, decide_eq_true_eq, ih]
    · simp only [List.filter_cons, decide_eq_true_eq, if_neg hx]

theorem filter_sortDescBy {α : Type} (s : α → ℚ) (l : List α) (q : ℚ) :
    (sortDescBy s l).filter (fun a => decide (s a = q))
      = l.filter (fun a => decide (s a = q)) := by
  induction l with
  | nil => rfl
  | cons x xs ih =>
    by_cases hx : s x = q
    · rw [sortDescBy, filter_insertDescBy_of_eq s x _ q hx, ih]
      simp only [List.filter_cons, decide_eq_true_eq, if_pos hx]
    · rw [sortDescBy, filter_insertDescBy_of_ne s x _ q hx, ih]
      simp only [List.filter_cons, decide_eq_true_eq, if_neg hx]

theorem append_ne_empty (s t : String) (h : s.length ≠ 0) : s ++ t ≠ "" := by
  intro he
  have hl : (s ++ t).length = 0 := by rw [he]; rfl
  rw [String.length_append] at hl
  omega

theorem log_discovery_interactions (db : DbState) (now : Nat) (pid pf src : String)
    (m : Metrics) :
    (Database.log_discovery db now pid pf src m).interactions = db.interactions := by
  unfold Database.log_discovery
  split <;> rfl

theorem check_log_discovery (db : DbState) (now : Nat) (pid pf src : String) (m : Metrics)
    (qid qpf : String) :
    Database.check_if_interacted (Database.log_discovery db now pid pf src m) qid qpf
      = Database.check_if_interacted db qid qpf := by
  unfold Database.check_if_interacted
  rw [log_discovery_interactions]

theorem log_discovery_keyed_seen (db : DbState) (now : Nat) (pid pf src : String)
    (m : Metrics) :
    ∀ r ∈ (Database.log_discovery db now pid pf src m).discovered,
      recordKeyed pid pf r = true →
        r.status = "seen" ∧ r.metrics = m ∧ r.created_at = now := by
  intro r hr hk
  unfold Database.log_discovery at hr
  split at hr
  · simp only [List.mem_map] at hr
    obtain ⟨r0, hr0, hfr⟩ := hr
    by_cases h0 : recordKeyed pid pf r0 = true
    · rw [if_pos h0] at hfr
      rw [← hfr]
      exact ⟨rfl, rfl, rfl⟩
    · rw [if_neg h0] at hfr
      rw [← hfr] at hk
      exact absurd hk h0
  · rename_i hany
    rcases List.mem_append.mp hr with hr | hr
    · exact absurd (List.any_eq_true.mpr ⟨r, hr, hk⟩) hany
    · rcases List.mem_singleton.mp hr with rfl
      exact ⟨rfl, rfl, rfl⟩

theorem log_discovery_keyed_exists (db : DbState) (now : Nat) (pid pf src : String)
    (m : Metrics) :
    ∃ r ∈ (Database.log_discovery db now pid pf src m).discovered,
      recordKeyed pid pf r = true := by
  unfold Database.log_discovery
  split
  · rename_i hany
    obtain ⟨r0, hr0, hk0⟩ := List.any_eq_true.mp hany
    refine ⟨_, List.mem_map_of_mem _ hr0, ?_⟩
    rw [if_pos hk0]
    simpa [recordKeyed] using hk0
  · exact ⟨_, List.mem_append_right _ (List.mem_singleton_self _), by simp [recordKeyed]⟩

theorem update_status_keyed_fields (db : DbState) (now : Nat) (eid pf st s : String)
    (hs : s ≠ "") :
    ∀ r ∈ (Database.update_discovery_status db now eid pf st (some s)).discovered,
      recordKeyed eid pf r = true → r.status = st ∧ r.ai_reasoning = some s := by
  intro r hr hk
  unfold Database.update_discovery_status at hr
  simp only [List.mem_map] at hr
  obtain ⟨r0, hr0, hfr⟩ := hr
  by_cases h0 : recordKeyed eid pf r0 = true
  · rw [if_pos h0] at hfr
    rw [← hfr]
    exact ⟨rfl, by simp [if_neg hs]⟩
  · rw [if_neg h0] at hfr
    rw [← hfr] at hk
    exact absurd hk h0

theorem update_status_keyed_exists (db : DbState) (now : Nat) (eid pf st : String)
    (reas : Option String) (qid qpf : String)
    (h : ∃ r ∈ db.discovered, recordKeyed qid qpf r = true) :
    ∃ r ∈ (Database.update_discovery_status db now eid pf st reas).discovered,
      recordKeyed qid qpf r = true := by
  obtain ⟨r0, hr0, hk0⟩ := h
  unfold Database.update_discovery_status
  refine ⟨_, List.mem_map_of_mem _ hr0, ?_⟩
  by_cases h0 : recordKeyed eid pf r0 = true
  · rw [if_pos h0]
    simpa [recordKeyed] using hk0
  · rw [if_neg h0]
    exact hk0

/-! ## Claims -/

/-- C1: for every list of approved (post, verdict) pairs, `rank_by_virality`
returns a permutation of its input, ordered by descending virality score
(`likes + comments*3 + shares*5 + views*0.01 + followers*0.001`, missing
metric fields defaulting to 0 — see `viralityScore`), and pairs with exactly
equal scores keep their original relative order: for every score value, the
sublist of pairs carrying that score is unchanged. -/
theorem rank_by_virality_spec (approved : List (SocialPost × JudgeVerdict)) :
    (SocialAgent.rank_by_virality approved).Perm approved ∧
    (SocialAgent.rank_by_virality approved).Pairwise
      (fun a b => itemScore b ≤ itemScore a) ∧
    ∀ q : ℚ,
      (SocialAgent.rank_by_virality approved).filter (fun a => decide (itemScore a = q))
        = approved.filter (fun a => decide (itemScore a = q)) :=
  ⟨sortDescBy_perm itemScore approved, sortDescBy_pairwise itemScore approved,
    fun q => filter_sortDescBy itemScore approved q⟩

/-- Generation output on the success path used to exhibit the
`decide_and_comment` construction bug: high confidence, non-empty comment. -/
def c2SuccessOutput : GhostwriterOutput :=
  { comment_text := "Great take!", confidence_score := 100, reasoning := "ok" }

/-- C2: the post-processing block of `decide_and_comment` behaves exactly as
the claim says (confidence 69 rejects with the tagged prefix prepended,
whitespace-only comments reject with the `[Empty Comment]` prefix, confidence
70 leaves the decision to the emptiness check alone) — but the decision the
method actually returns diverges: constructing the final `ActionDecision`
passes a `confidence_score` keyword the dataclass does not declare, the
`TypeError` is caught by the handler, and even a confident non-empty
generation comes back as `should_act = false` with an `Error:` reasoning. -/
theorem decide_and_comment_confidence_kwarg_bug :
    decisionPostProcess c2SuccessOutput = (true, "ok") ∧
    decisionPostProcess { comment_text := "hi", confidence_score := 69, reasoning := "r" }
      = (false, "[Low Confidence 69%] r") ∧
    decisionPostProcess { comment_text := "   ", confidence_score := 100, reasoning := "r" }
      = (false, "[Empty Comment] r") ∧
    decisionPostProcess { comment_text := "hi", confidence_score := 70, reasoning := "r" }
      = (true, "r") ∧
    SocialAgent.decide_and_comment (.ok c2SuccessOutput)
      = { should_act := false,
          reasoning := some ("Error: " ++ actionDecisionTypeErrorMsg) } := by
  refine ⟨?_, ?_, ?_, ?_, rfl⟩ <;> decide

/-- C3: generation failures never propagate and are asymmetric by pipeline
position — an exception in the Judge LLM call (the call only happens when the
hard filter did not fire) yields a fail-open verdict with `should_engage =
true` and reasoning prefixed `Judge error (fail-open)`, while an exception
inside `decide_and_comment` yields a fail-closed decision with `should_act =
false` and reasoning prefixed `Error:`. -/
theorem generation_failure_asymmetry :
    (∀ (post : SocialPost) (e : String),
        linkedinCompanyHardBlock post = false →
          Judge.evaluate post (.error e)
            = { should_engage := true, category := .OTHER, language := "en",
                reasoning := "Judge error (fail-open): " ++ e }) ∧
    (∀ e : String,
        SocialAgent.decide_and_comment (.error e)
          = { should_act := false, action_type := "comment", content := none,
              reasoning := some ("Error: " ++ e), platform := none }) := by
  constructor
  · intro post e h
    simp [Judge.evaluate, h, judgeFailOpenVerdict]
  · intro e
    rfl

/-- Concrete non-LinkedIn post, on which the Judge hard filter cannot fire. -/
def plainTwitterPost : SocialPost :=
  { id := "p1", platform := .twitter,
    author := { username := "alice", platform := .twitter },
    content := "a post about compilers", url := "u" }

/-- Witness for C3: the fail-open branch at a concrete post and exception. -/
theorem generation_failure_asymmetry_witness :
    linkedinCompanyHardBlock plainTwitterPost = false ∧
    Judge.evaluate plainTwitterPost (.error "boom")
      = { should_engage := true, category := .OTHER, language := "en",
          reasoning := "Judge error (fail-open): " ++ "boom" } :=
  ⟨by decide, generation_failure_asymmetry.1 plainTwitterPost "boom" (by decide)⟩

/-- C10: `Ghostwriter.write` is total with a fail-closed default — an
exception in the LLM call or a raw-string response both come back (nothing is
raised) as an output with empty `comment_text` and `confidence_score = 0`,
and the decision pipeline maps such an output to `should_act = false` (its
guards compute `false`, and the returned decision is fail-closed as well). -/
theorem ghostwriter_write_fail_closed :
    (∀ e : String,
        Ghostwriter.write (.error e)
          = { comment_text := "", confidence_score := 0,
              reasoning := "Ghostwriter error: " ++ e }) ∧
    (∀ raw : String,
        Ghostwriter.write (.ok (.inl raw))
          = { comment_text := "", confidence_score := 0,
              reasoning := "LLM returned raw string instead of structured object." }) ∧
    (∀ e : String,
        (decisionPostProcess (Ghostwriter.write (.error e))).1 = false ∧
        (SocialAgent.decide_and_comment (.ok (Ghostwriter.write (.error e)))).should_act
          = false) ∧
    (∀ raw : String,
        (decisionPostProcess (Ghostwriter.write (.ok (.inl raw)))).1 = false ∧
        (SocialAgent.decide_and_comment (.ok (Ghostwriter.write (.ok (.inl raw))))).should_act
          = false) := by
  refine ⟨fun e => rfl, fun raw => rfl, fun e => ⟨rfl, rfl⟩, fun raw => ⟨rfl, rfl⟩⟩

/-- Empty store: nothing interacted, nothing discovered. -/
def emptyDb : DbState := { interactions := [], discovered := [] }

/-- A concrete Instagram post whose key is already in the interactions
table of `igDb`. -/
def igPost : SocialPost :=
  { id := "ig1", platform := .instagram,
    author := { username := "bob", platform := .instagram },
    content := "some caption", url := "u" }

def igDb : DbState := { interactions := [("ig1", "instagram")], discovered := [] }

/-- C4 counterexample: for the Instagram validator an already-interacted post
is rejected, but no discovery record is updated to "skipped" at all — the
validator makes no store write, so the claim fails as stated over every
platform validator. -/
theorem validate_already_interacted_counterexample :
    igPost.id ≠ "" ∧
    Database.check_if_interacted igDb igPost.id igPost.platform.value = true ∧
    InstagramDiscovery.validate_candidate "me" igPost igDb = (false, igDb) ∧
    ¬ ∃ r ∈ (InstagramDiscovery.validate_candidate "me" igPost igDb).2.discovered,
        recordKeyed "ig1" "instagram" r = true ∧ r.status = "skipped" := by
  decide

/-- C4 (amended): already-interacted handling is per-platform.  LinkedIn
rejects and records status "skipped" with reasoning "Already interacted";
Twitter does the same, but only for posts whose reply count lies in the
[5, 50] band (its engagement filter runs first and otherwise records its own
reasoning); Instagram rejects but performs no store write at all. -/
theorem validate_already_interacted (post : SocialPost) (db : DbState) (now : Nat)
    (igUsername : String) (hid : post.id ≠ "") :
    (Database.check_if_interacted db post.id "linkedin" = true →
      (LinkedInDiscovery.validate_candidate post db now).1 = false ∧
      ∀ r ∈ (LinkedInDiscovery.validate_candidate post db now).2.discovered,
        recordKeyed post.id post.platform.value r = true →
          r.status = "skipped" ∧ r.ai_reasoning = some "Already interacted") ∧
    (Database.check_if_interacted db post.id post.platform.value = true →
      5 ≤ twitterReplyCount post →
      twitterReplyCount post ≤ 50 →
      (TwitterDiscovery.validate_candidate post db now).1 = false ∧
      ∀ r ∈ (TwitterDiscovery.validate_candidate post db now).2.discovered,
        recordKeyed post.id post.platform.value r = true →
          r.status = "skipped" ∧ r.ai_reasoning = some "Already interacted") ∧
    (Database.check_if_interacted db post.id post.platform.value = true →
      InstagramDiscovery.validate_candidate igUsername post db = (false, db)) := by
  refine ⟨?_, ?_, ?_⟩
  · intro hint
    have hint1 : Database.check_if_interacted (discoveryLogged post db now)
        post.id "linkedin" = true := by
      unfold discoveryLogged
      rw [check_log_discovery]
      exact hint
    have heq : LinkedInDiscovery.validate_candidate post db now
        = (false, Database.update_discovery_status (discoveryLogged post db now) now post.id
            post.platform.value "skipped" (some "Already interacted")) := by
      unfold LinkedInDiscovery.validate_candidate
      rw [if_neg hid, if_pos hint1]
    rw [heq]
    exact ⟨rfl, update_status_keyed_fields _ _ _ _ _ _ (by decide)⟩
  · intro hint h5 h50
    have hint1 : Database.check_if_interacted (discoveryLogged post db now)
        post.id post.platform.value = true := by
      unfold discoveryLogged
      rw [check_log_discovery]
      exact hint
    have heq : TwitterDiscovery.validate_candidate post db now
        = (false, Database.update_discovery_status (discoveryLogged post db now) now post.id
            post.platform.value "skipped" (some "Already interacted")) := by
      unfold TwitterDiscovery.validate_candidate
      rw [if_neg hid, if_neg (not_lt.mpr h5), if_neg (not_lt.mpr h50), if_pos hint1]
    rw [heq]
    exact ⟨rfl, update_status_keyed_fields _ _ _ _ _ _ (by decide)⟩
  · intro hint
    unfold InstagramDiscovery.validate_candidate
    rw [if_neg hid, if_pos hint]

/-- Concrete LinkedIn author for the fixtures below. -/
def lkAuthor : SocialAuthor := { username := "dave", platform := .linkedin }

/-- A concrete LinkedIn post whose key is already in the interactions table
of `lkSeenDb`. -/
def lkSeenPost : SocialPost :=
  { id := "lk9", platform := .linkedin, author := lkAuthor,
    content := "some linkedin post body", url := "u",
    metrics := [("likes", 50), ("comments", 5)] }

def lkSeenDb : DbState := { interactions := [("lk9", "linkedin")], discovered := [] }

/-- The discovery record produced for `lkSeenPost`: logged as seen, then
marked skipped by the dedup branch. -/
def lkSkippedRecord : DiscoveredPostRecord :=
  { external_id := "lk9", platform := "linkedin", hashtag_source := "discovery",
    metrics := [("likes", 50), ("comments", 5)], status := "skipped",
    ai_reasoning := some "Already interacted", created_at := 0, updated_at := some 0 }

/-- Witness for C4 (amended) at the LinkedIn conjunct. -/
theorem validate_already_interacted_witness :
    (LinkedInDiscovery.validate_candidate lkSeenPost lkSeenDb 0).1 = false ∧
    lkSkippedRecord.status = "skipped" ∧
    lkSkippedRecord.ai_reasoning = some "Already interacted" := by
  have h := (validate_already_interacted lkSeenPost lkSeenDb 0 "me" (by decide)).1 (by decide)
  exact ⟨h.1, h.2 lkSkippedRecord (by decide) (by decide)⟩

/-- A concrete Instagram post with a non-empty id that passes validation. -/
def igFreshPost : SocialPost :=
  { id := "ig2", platform := .instagram,
    author := { username := "carol", platform := .instagram },
    content := "a fresh caption", url := "u" }

/-- C5 counterexample: the Instagram validator never upserts a "seen"
discovery record — here a post with a non-empty id goes through the whole
validation (successfully, even) and the store still holds no record for its
key, so the claim fails as stated over every platform validator. -/
theorem validate_seen_upsert_counterexample :
    igFreshPost.id ≠ "" ∧
    InstagramDiscovery.validate_candidate "me" igFreshPost emptyDb = (true, emptyDb) ∧
    ¬ ∃ r ∈ (InstagramDiscovery.validate_candidate "me" igFreshPost emptyDb).2.discovered,
        recordKeyed "ig2" "instagram" r = true := by
  decide

/-- C5 (amended): empty-id posts are rejected by all three validators with
no store write; for a non-empty id the Twitter and LinkedIn validators always
upsert a "seen" record (still present, whatever its final status, after every
validation outcome), while the Instagram validator performs no discovery
write at all — its store state is returned unchanged on every path. -/
theorem validate_seen_upsert (post : SocialPost) (db : DbState) (now : Nat)
    (igUsername : String) :
    (post.id = "" →
      TwitterDiscovery.validate_candidate post db now = (false, db) ∧
      LinkedInDiscovery.validate_candidate post db now = (false, db) ∧
      InstagramDiscovery.validate_candidate igUsername post db = (false, db)) ∧
    (post.id ≠ "" →
      (∃ r ∈ (discoveryLogged post db now).discovered,
          recordKeyed post.id post.platform.value r = true ∧ r.status = "seen") ∧
      (∃ r ∈ (TwitterDiscovery.validate_candidate post db now).2.discovered,
          recordKeyed post.id post.platform.value r = true) ∧
      (∃ r ∈ (LinkedInDiscovery.validate_candidate post db now).2.discovered,
          recordKeyed post.id post.platform.value r = true)) ∧
    ((InstagramDiscovery.validate_candidate igUsername post db).2 = db) := by
  have hlogged : ∃ r ∈ (discoveryLogged post db now).discovered,
      recordKeyed post.id post.platform.value r = true := by
    unfold discoveryLogged
    exact log_discovery_keyed_exists db now post.id post.platform.value "discovery" post.metrics
  have hupd : ∀ st : String, ∀ reas : Option String,
      ∃ r ∈ (Database.update_discovery_status (discoveryLogged post db now) now post.id
          post.platform.value st reas).discovered,
        recordKeyed post.id post.platform.value r = true := by
    intro st reas
    exact update_status_keyed_exists _ _ _ _ _ _ _ _ hlogged
  refine ⟨?_, ?_, ?_⟩
  · intro h
    unfold TwitterDiscovery.validate_candidate LinkedInDiscovery.validate_candidate
      InstagramDiscovery.validate_candidate
    rw [if_pos h, if_pos h, if_pos h]
    exact ⟨rfl, rfl, rfl⟩
  · intro hid
    refine ⟨?_, ?_, ?_⟩
    · obtain ⟨r, hr, hk⟩ := hlogged
      have hseen := log_discovery_keyed_seen db now post.id post.platform.value "discovery"
        post.metrics r (by simpa [discoveryLogged] using hr) hk
      exact ⟨r, hr, hk, hseen.1⟩
    · unfold TwitterDiscovery.validate_candidate
      rw [if_neg hid]
      split
      · exact hupd _ _
      split
      · exact hupd _ _
      split
      · exact hupd _ _
      · exact hlogged
    · unfold LinkedInDiscovery.validate_candidate
      rw [if_neg hid]
      split
      · exact hupd _ _
      split
      · exact hupd _ _
      split
      · exact hlogged
      split
      · exact hupd _ _
      · exact hlogged
  · unfold InstagramDiscovery.validate_candidate
    split
    · rfl
    split
    · rfl
    split
    · rfl
    split <;> rfl

/-- A concrete Twitter post with no reply-count metric (so it fails the
engagement band). -/
def twLowPost : SocialPost :=
  { id := "tw0", platform := .twitter,
    author := { username := "erin", platform := .twitter },
    content := "a tweet", url := "u", metrics := [] }

/-- Witness for C5 (amended): a Twitter post that fails validation (reply
count 0) still leaves a "seen"-then-"skipped" record for its key. -/
theorem validate_seen_upsert_witness :
    (∃ r ∈ (TwitterDiscovery.validate_candidate twLowPost emptyDb 0).2.discovered,
        recordKeyed "tw0" "twitter" r = true) :=
  ((validate_seen_upsert twLowPost emptyDb 0 "me").2.1 (by decide)).2.1

/-- Store holding one record whose status was advanced past "seen" by a
later pipeline stage. -/
def advancedDb : DbState :=
  { interactions := [],
    discovered := [{ external_id := "t1", platform := "twitter",
                     hashtag_source := "discovery", metrics := [],
                     status := "commented", ai_reasoning := none,
                     created_at := 0, updated_at := none }] }

/-- C6 counterexample: a record advanced to "commented" is moved back to
"seen" by a later `log_discovery` call on the same key — the upsert payload
always carries `status = "seen"`, so re-discovery does regress the status. -/
theorem log_discovery_status_regression_counterexample :
    advancedDb.discovered.map DiscoveredPostRecord.status = ["commented"] ∧
    (Database.log_discovery advancedDb 1 "t1" "twitter" "discovery"
        [("reply_count", 7)]).discovered.map DiscoveredPostRecord.status = ["seen"] := by
  decide

/-- C6 (amended): re-discovery of an existing `(external_id, platform)` key
overwrites its metrics and timestamp and also resets its status to "seen" —
`log_discovery` never preserves a status advanced by a later stage; only
`update_discovery_status` moves statuses deliberately. -/
theorem log_discovery_resets_status (db : DbState) (now : Nat) (pid pf src : String)
    (m : Metrics) :
    ∀ r ∈ (Database.log_discovery db now pid pf src m).discovered,
      recordKeyed pid pf r = true →
        r.status = "seen" ∧ r.metrics = m ∧ r.created_at = now :=
  log_discovery_keyed_seen db now pid pf src m

/-- The record of `advancedDb` after re-discovery at time 1. -/
def rediscoveredRecord : DiscoveredPostRecord :=
  { external_id := "t1", platform := "twitter", hashtag_source := "discovery",
    metrics := [("reply_count", 7)], status := "seen", ai_reasoning := none,
    created_at := 1, updated_at := none }

/-- Witness for C6 (amended) on the concrete re-discovery of `advancedDb`. -/
theorem log_discovery_resets_status_witness :
    rediscoveredRecord.status = "seen" ∧
    rediscoveredRecord.metrics = [("reply_count", 7)] ∧
    rediscoveredRecord.created_at = 1 :=
  log_discovery_resets_status advancedDb 1 "t1" "twitter" "discovery" [("reply_count", 7)]
    rediscoveredRecord (by decide) (by decide)

theorem lit_append_append_ne_empty (a x b : String) (ha : a.length ≠ 0) :
    a ++ x ++ b ≠ "" := by
  apply append_ne_empty
  rw [String.length_append]
  omega

/-- C7: for every LinkedIn post reaching the engagement-floor check
(non-empty id, not already interacted, content of length at least 10, no
"Promoted" marker), admission is governed by OR semantics over the two
floors: the post validates exactly when `likes >= 10` or `comments >= 2`
(with `likes` and `comments` read through the Python `or` chains of the
source, see `linkedinLikes` / `linkedinComments`). -/
theorem linkedin_engagement_floor_or (post : SocialPost) (db : DbState) (now : Nat)
    (hid : post.id ≠ "")
    (hdedup : Database.check_if_interacted db post.id "linkedin" = false)
    (hlen : 10 ≤ post.content.length)
    (hpromo : hasSub post.content "Promoted" = false) :
    ((LinkedInDiscovery.validate_candidate post db now).1 = true) ↔
      (10 ≤ linkedinLikes post ∨ 2 ≤ linkedinComments post) := by
  have hint1 : Database.check_if_interacted (discoveryLogged post db now)
      post.id "linkedin" = false := by
    unfold discoveryLogged
    rw [check_log_discovery]
    exact hdedup
  have hcontent : ¬ (post.content = "" ∨ post.content.length < 10) := by
    rintro (h | h)
    · rw [h] at hlen
      exact absurd hlen (by decide)
    · omega
  unfold LinkedInDiscovery.validate_candidate
  rw [if_neg hid,
    if_neg (show ¬ Database.check_if_interacted (discoveryLogged post db now)
        post.id "linkedin" = true by simp [hint1]),
    if_neg hcontent,
    if_neg (show ¬ hasSub post.content "Promoted" = true by simp [hpromo])]
  by_cases hc : linkedinLikes post < 10 ∧ linkedinComments post < 2
  · rw [if_pos hc]
    constructor
    · intro h
      exact absurd h Bool.false_ne_true
    · intro h
      exfalso
      rcases h with h | h <;> omega
  · rw [if_neg hc]
    constructor
    · intro _
      omega
    · intro _
      rfl

/-- Concrete LinkedIn posts around the engagement floor. -/
def lkPost91 : SocialPost :=
  { id := "lk91", platform := .linkedin, author := lkAuthor,
    content := "a long enough linkedin post", url := "u",
    metrics := [("likes", 9), ("comments", 1)] }

def lkPost101 : SocialPost :=
  { id := "lk101", platform := .linkedin, author := lkAuthor,
    content := "a long enough linkedin post", url := "u",
    metrics := [("likes", 10), ("comments", 1)] }

def lkPost02 : SocialPost :=
  { id := "lk02", platform := .linkedin, author := lkAuthor,
    content := "a long enough linkedin post", url := "u",
    metrics := [("likes", 0), ("comments", 2)] }

/-- Witness for C7 at the three boundary posts of the claim. -/
theorem linkedin_engagement_floor_or_witness :
    (LinkedInDiscovery.validate_candidate lkPost91 emptyDb 0).1 = false ∧
    (LinkedInDiscovery.validate_candidate lkPost101 emptyDb 0).1 = true ∧
    (LinkedInDiscovery.validate_candidate lkPost02 emptyDb 0).1 = true := by
  refine ⟨?_, ?_, ?_⟩
  · have h := linkedin_engagement_floor_or lkPost91 emptyDb 0
      (by decide) (by decide) (by decide) (by decide)
    cases hb : (LinkedInDiscovery.validate_candidate lkPost91 emptyDb 0).1
    · rfl
    · exact absurd (h.mp hb) (by decide)
  · exact (linkedin_engagement_floor_or lkPost101 emptyDb 0
      (by decide) (by decide) (by decide) (by decide)).mpr (by decide)
  · exact (linkedin_engagement_floor_or lkPost02 emptyDb 0
      (by decide) (by decide) (by decide) (by decide)).mpr (by decide)

/-- C8: a Twitter post with non-empty id that is not already interacted is
admitted exactly when its reply count lies in the closed band [5, 50]; below
the band the record is skipped with the "Low engagement" reasoning, above it
with the "Too crowded" reasoning. -/
theorem twitter_reply_band (post : SocialPost) (db : DbState) (now : Nat)
    (hid : post.id ≠ "")
    (hdedup : Database.check_if_interacted db post.id post.platform.value = false) :
    (((TwitterDiscovery.validate_candidate post db now).1 = true) ↔
        (5 ≤ twitterReplyCount post ∧ twitterReplyCount post ≤ 50)) ∧
    (twitterReplyCount post < 5 →
      ∀ r ∈ (TwitterDiscovery.validate_candidate post db now).2.discovered,
        recordKeyed post.id post.platform.value r = true →
          r.status = "skipped" ∧
          r.ai_reasoning = some ("Low engagement: "
            ++ toString (twitterReplyCount post) ++ " replies")) ∧
    (50 < twitterReplyCount post →
      ∀ r ∈ (TwitterDiscovery.validate_candidate post db now).2.discovered,
        recordKeyed post.id post.platform.value r = true →
          r.status = "skipped" ∧
          r.ai_reasoning = some ("Too crowded: "
            ++ toString (twitterReplyCount post) ++ " replies")) := by
  have hint1 : Database.check_if_interacted (discoveryLogged post db now)
      post.id post.platform.value = false := by
    unfold discoveryLogged
    rw [check_log_discovery]
    exact hdedup
  refine ⟨?_, ?_, ?_⟩
  · unfold TwitterDiscovery.validate_candidate
    rw [if_neg hid]
    by_cases h5 : twitterReplyCount post < 5
    · rw [if_pos h5]
      constructor
      · intro h
        exact absurd h Bool.false_ne_true
      · intro h
        exfalso
        omega
    · rw [if_neg h5]
      by_cases h50 : twitterReplyCount post > 50
      · rw [if_pos h50]
        constructor
        · intro h
          exact absurd h Bool.false_ne_true
        · intro h
          exfalso
          omega
      · rw [if_neg h50,
          if_neg (show ¬ Database.check_if_interacted (discoveryLogged post db now)
              post.id post.platform.value = true by simp [hint1])]
        constructor
        · intro _
          omega
        · intro _
          rfl
  · intro h5
    have heq : TwitterDiscovery.validate_candidate post db now
        = (false, Database.update_discovery_status (discoveryLogged post db now) now post.id
            post.platform.value "skipped"
            (some ("Low engagement: " ++ toString (twitterReplyCount post) ++ " replies"))) := by
      unfold TwitterDiscovery.validate_candidate
      rw [if_neg hid, if_pos h5]
    rw [heq]
    exact update_status_keyed_fields _ _ _ _ _ _
      (lit_append_append_ne_empty _ _ _ (by decide))
  · intro h50
    have heq : TwitterDiscovery.validate_candidate post db now
        = (false, Database.update_discovery_status (discoveryLogged post db now) now post.id
            post.platform.value "skipped"
            (some ("Too crowded: " ++ toString (twitterReplyCount post) ++ " replies"))) := by
      unfold TwitterDiscovery.validate_candidate
      rw [if_neg hid, if_neg (show ¬ twitterReplyCount post < 5 by omega), if_pos h50]
    rw [heq]
    exact update_status_keyed_fields _ _ _ _ _ _
      (lit_append_append_ne_empty _ _ _ (by decide))

def twAuthor : SocialAuthor := { username := "erin", platform := .twitter }

/-- Concrete Twitter posts around both edges of the reply band. -/
def tw4Post : SocialPost :=
  { id := "tw4", platform := .twitter, author := twAuthor, content := "t", url := "u",
    metrics := [("reply_count", 4)] }

def tw5Post : SocialPost :=
  { id := "tw5", platform := .twitter, author := twAuthor, content := "t", url := "u",
    metrics := [("reply_count", 5)] }

def tw50Post : SocialPost :=
  { id := "tw50", platform := .twitter, author := twAuthor, content := "t", url := "u",
    metrics := [("reply_count", 50)] }

def tw51Post : SocialPost :=
  { id := "tw51", platform := .twitter, author := twAuthor, content := "t", url := "u",
    metrics := [("reply_count", 51)] }

/-- The discovery record produced for `tw4Post`. -/
def tw4SkippedRecord : DiscoveredPostRecord :=
  { external_id := "tw4", platform := "twitter", hashtag_source := "discovery",
    metrics := [("reply_count", 4)], status := "skipped",
    ai_reasoning := some "Low engagement: 4 replies", created_at := 0, updated_at := some 0 }

/-- Witness for C8 at the four boundary posts of the claim. -/
theorem twitter_reply_band_witness :
    (TwitterDiscovery.validate_candidate tw5Post emptyDb 0).1 = true ∧
    (TwitterDiscovery.validate_candidate tw50Post emptyDb 0).1 = true ∧
    (TwitterDiscovery.validate_candidate tw4Post emptyDb 0).1 = false ∧
    (TwitterDiscovery.validate_candidate tw51Post emptyDb 0).1 = false ∧
    tw4SkippedRecord.status = "skipped" ∧
    tw4SkippedRecord.ai_reasoning = some "Low engagement: 4 replies" := by
  refine ⟨?_, ?_, ?_, ?_, ?_, ?_⟩
  · exact ((twitter_reply_band tw5Post emptyDb 0 (by decide) (by decide)).1).mpr (by decide)
  · exact ((twitter_reply_band tw50Post emptyDb 0 (by decide) (by decide)).1).mpr (by decide)
  · have h := (twitter_reply_band tw4Post emptyDb 0 (by decide) (by decide)).1
    cases hb : (TwitterDiscovery.validate_candidate tw4Post emptyDb 0).1
    · rfl
    · exact absurd (h.mp hb) (by decide)
  · have h := (twitter_reply_band tw51Post emptyDb 0 (by decide) (by decide)).1
    cases hb : (TwitterDiscovery.validate_candidate tw51Post emptyDb 0).1
    · rfl
    · exact absurd (h.mp hb) (by decide)
  · exact ((twitter_reply_band tw4Post emptyDb 0 (by decide) (by decide)).2.1 (by decide)
      tw4SkippedRecord (by decide) (by decide)).1
  · exact ((twitter_reply_band tw4Post emptyDb 0 (by decide) (by decide)).2.1 (by decide)
      tw4SkippedRecord (by decide) (by decide)).2

/-- A structured approval the LLM would return if it were consulted. -/
def approveVerdictStub : JudgeVerdict :=
  { should_engage := true, category := .TECHNICAL, language := "en", reasoning := "ok" }

/-- A LinkedIn company-page post (profile URL contains "/company/") with
engagement below both floors. -/
def companyLowEngagementPost : SocialPost :=
  { id := "lkc1", platform := .linkedin,
    author := { username := "acme", platform := .linkedin,
                profile_url := some "https://www.linkedin.com/company/acme/" },
    content := "We are hiring engineers, apply today!", url := "u",
    metrics := [("likes", 0), ("comments", 0)] }

/-- C9 counterexample: the company/school hard block does not run before the
generic engagement check — here a company post (the hard filter matches it)
with low engagement is thrown out by the validator's engagement floor, its
record reasoning is the engagement string rather than the fixed hard-block
string, and the Judge (where the hard block actually lives) is never
reached. -/
theorem linkedin_hardblock_order_counterexample :
    linkedinCompanyHardBlock companyLowEngagementPost = true ∧
    (linkedinCandidateStage companyLowEngagementPost emptyDb 0
        (.ok approveVerdictStub)).1 = none ∧
    (∀ r ∈ (linkedinCandidateStage companyLowEngagementPost emptyDb 0
        (.ok approveVerdictStub)).2.discovered,
      ¬ r.ai_reasoning = some hardBlockVerdict.reasoning) ∧
    (∃ r ∈ (linkedinCandidateStage companyLowEngagementPost emptyDb 0
        (.ok approveVerdictStub)).2.discovered,
      r.ai_reasoning = some "Low engagement: 0 likes, 0 comments") := by
  decide

/-- C9 (amended): the company/school hard block lives in `Judge.evaluate`,
after discovery validation but before the LLM call: every LinkedIn post whose
author profile URL contains "/company/" or "/school/", or whose handle
contains "/posts", is rejected there with the fixed reasoning string,
independently of the LLM outcome and of the post's engagement metrics. -/
theorem linkedin_hardblock_in_judge (post : SocialPost)
    (llm : Except String JudgeVerdict)
    (h : linkedinCompanyHardBlock post = true) :
    Judge.evaluate post llm = hardBlockVerdict ∧
    ∀ m : Metrics, Judge.evaluate { post with metrics := m } llm = hardBlockVerdict := by
  have hm : ∀ m : Metrics,
      linkedinCompanyHardBlock { post with metrics := m } = true := by
    intro m
    cases post
    exact h
  constructor
  · simp [Judge.evaluate, h]
  · intro m
    simp [Judge.evaluate, hm m]

/-- Witness for C9 (amended): the concrete company post is hard-blocked by
the Judge whatever the LLM would have said. -/
theorem linkedin_hardblock_in_judge_witness :
    Judge.evaluate companyLowEngagementPost (.error "llm down") = hardBlockVerdict :=
  (linkedin_hardblock_in_judge companyLowEngagementPost (.error "llm down") (by decide)).1

end Netbot
